import Mathlib

/-!
Verification of the phylactery binding/handle/anchor subsystem.

This file shallowly embeds the reference-counting state machines of the
repository:

* the flat module pair soul.rs / lich.rs, whose binding state is a single
  AtomicU32 stored inside the Soul (count 0 = unbound, 1..u32MAX-1 = bound,
  u32MAX = severed sentinel);
* the Binding-trait modules: atomic.rs (AtomicU32 counter with wait/wake),
  raw.rs (manual usize counter plus value-address identity), cell.rs
  (RefCell slot) and lock.rs (RwLock slot), together with the generic
  redeem of lib.rs.

Machine integers are modelled as natural numbers reduced modulo 2^32 exactly
where the Rust code wraps; the severed sentinel is u32MAX = 2^32 - 1.
Blocking (atomic_wait) is modelled by letting the sever loop consume a
supply of external decrement events: each wait returns after one more Lich
has been dropped on another thread.
-/

namespace Phylactery

/-- Modulus of the 32-bit counters used by the bindings. -/
def u32Mod : ℕ := 4294967296

/-- Sentinel value meaning severed; this is the maximal u32 value. -/
def u32Max : ℕ := 4294967295

/-! ## Flat module: soul.rs and lich.rs -/

/-- Translation of Soul::bind from soul.rs: count.fetch_add(1, Relaxed) with
no overflow or severed check, so the stored count wraps modulo 2^32. The
result is the new count. -/
def flatBind (c : ℕ) : ℕ := (c + 1) % u32Mod

/-- Translation of Soul::bindings (identical to Lich::bindings in lich.rs):
count.load(Relaxed).wrapping_add(1).saturating_sub(1). Natural-number
subtraction is truncated at zero exactly like saturating_sub. -/
def flatBindings (c : ℕ) : ℕ := (c + 1) % u32Mod - 1

/-- Translation of increment from lich.rs, used by the Clone impl of Lich:
fetch_update refuses when the value is not below u32MAX - 1; the refusal is
surfaced as a panic (maximum number of Liches reached, or unreachable at the
sentinel), modelled as none. On success the new count is returned. -/
def increment (c : ℕ) : Option ℕ :=
  if c < u32Max - 1 then some (c + 1) else none

/-- Translation of decrement from lich.rs: fetch_sub(1, Relaxed) whose
previous value 0 or u32MAX is declared unreachable (modelled as none);
otherwise the new count is returned. -/
def decrement (c : ℕ) : Option ℕ :=
  if c = 0 ∨ c = u32Max then none else some (c - 1)

/-- Translation of the Drop impl of Lich in lich.rs: decrement the count and
wake one waiter exactly when the new count is 0. The result pairs the new
count with the wake flag. -/
def flatLichDrop (c : ℕ) : Option (ℕ × Bool) :=
  (decrement c).map (fun n => (n, n == 0))

/-- Translation of Soul::redeem from soul.rs for a Lich whose count pointer
does (bound = true) or does not (bound = false) equal the address of this
Soul count field. On success the Lich is forgotten (its destructor logic is
skipped) and the value returned to the caller is the result of
fetch_sub(1, Relaxed), which is the PREVIOUS count; the stored count becomes
the previous count minus one, wrapping modulo 2^32. The pair is
(returned value, new stored count); none models the Err(lich) branch. -/
def flatRedeem (c : ℕ) (bound : Bool) : Option (ℕ × ℕ) :=
  if bound then some (c, (c + (u32Mod - 1)) % u32Mod) else none

/-- Translation of the free function sever from soul.rs (lines 187-195): a
compare-exchange loop on the count. CAS(0, u32MAX) succeeding breaks true;
observing the sentinel breaks true (the state is already fully severed);
otherwise with FORCE the thread waits on the counter until an external
decrement occurs (modelled by consuming one event from the supply e) and
retries, and without FORCE it breaks false. The result pairs the reported
Bool (none when the forcing loop blocks with no event left) with the final
count. -/
def flatSever (force : Bool) : ℕ → ℕ → Option Bool × ℕ
  | c, e =>
    if c = 0 then (some true, u32Max)
    else if c = u32Max then (some true, u32Max)
    else if force then
      match e with
      | 0 => (none, c)
      | Nat.succ e2 => flatSever force (c - 1) e2
    else (some false, c)

/-- Soul as needed for the identity check of soul.rs: the address of its
count field (distinct Souls occupy distinct memory, hence have distinct
count addresses) and the stored count. -/
structure FlatSoul where
  addr : ℕ
  count : ℕ
deriving DecidableEq

/-- Lich as needed for the identity check of soul.rs: the address its count
pointer refers to. -/
structure FlatLich where
  countAddr : ℕ
deriving DecidableEq

/-- Translation of Soul::is_bound from soul.rs: pointer equality between the
count field of the Soul and the count pointer of the Lich. -/
def is_bound (s : FlatSoul) (l : FlatLich) : Bool :=
  s.addr == l.countAddr

/-- Translation of Soul::redeem from soul.rs at the level of a Soul with an
address: when bound, forget the Lich and fetch_sub the count, returning the
previous count; otherwise return the Lich as an error (none) and leave the
Soul untouched. -/
def flatRedeemOp (s : FlatSoul) (l : FlatLich) : FlatSoul × Option ℕ :=
  if is_bound s l then
    ({ s with count := (s.count + (u32Mod - 1)) % u32Mod }, some s.count)
  else (s, none)

/-! ## Binding-trait module atomic.rs -/

/-- Translation of the free function sever from atomic.rs (lines 135-144): a
compare-exchange loop on the count. CAS(0, u32MAX) succeeding breaks
Some(true); observing the sentinel breaks Some(false); otherwise with WAIT
the thread waits on the counter until an external decrement occurs (one
event consumed from the supply e) and retries, and without WAIT it breaks
None (declined). The result pairs the reported value (none both for the
declined break and for a forcing loop blocked with no event left) with the
final count. -/
def atomicSever (wait : Bool) : ℕ → ℕ → Option Bool × ℕ
  | c, e =>
    if c = 0 then (some true, u32Max)
    else if c = u32Max then (some false, u32Max)
    else if wait then
      match e with
      | 0 => (none, c)
      | Nat.succ e2 => atomicSever wait (c - 1) e2
    else (none, c)

/-- Translation of the free function bound from atomic.rs: the count denotes
a live binding exactly when it is strictly between 0 and the sentinel. -/
def bound (c : ℕ) : Bool := 0 < c && c < u32Max

/-- Translation of the Clone impl of Data in atomic.rs: fetch_add(1,
Relaxed) with no overflow check, wrapping modulo 2^32; the result is the
new count. -/
def atomicClone (c : ℕ) : ℕ := (c + 1) % u32Mod

/-- Translation of the Drop impl of Data in atomic.rs (lines 41-48):
fetch_sub(1, Release), waking one waiter exactly when the previous value
was 1. The result pairs the new (wrapped) count with the wake flag. -/
def atomicDataDrop (c : ℕ) : ℕ × Bool :=
  ((c + (u32Mod - 1)) % u32Mod, c == 1)

/-- Translation of the generic redeem of lib.rs (lines 172-189)
instantiated at the atomic binding with BOUND = true, acting on the counter
state c given the result of are_bound. When bound, the Data of the Lich is
dropped in place (running the Drop impl of Data, hence one decrement and
possibly a wake), then is_life_bound is consulted on the new count: if it
still reports bound the Soul is returned as Ok(Some(soul)); otherwise the
Life of the Soul is dropped in place, which for the atomic binding runs no
code at all (Life has no Drop impl), and Ok(None) is returned. The result
pairs the outcome (none = Err(pair), some none = Ok(None), some (some n) =
Ok(Some(soul)) with n the remaining count) with the final counter value. -/
def atomicRedeem (c : ℕ) (areBound : Bool) : Option (Option ℕ) × ℕ :=
  if areBound then
    let c1 := (atomicDataDrop c).1
    if bound c1 then (some (some c1), c1) else (some none, c1)
  else (none, c)

/-! ## Binding-trait module raw.rs -/

/-- Soul of raw.rs: a usize binding count together with the address of the
wrapped value (the pointer stored in the Soul). -/
structure RawSoul where
  count : ℕ
  ptr : ℕ
deriving DecidableEq

/-- Lich of raw.rs: a bare pointer to the shrouded value. -/
structure RawLich where
  ptr : ℕ
deriving DecidableEq

/-- Translation of Soul::is_bound from raw.rs: the count is positive. -/
def rawIsBound (s : RawSoul) : Bool := 0 < s.count

/-- Translation of Soul::bind from raw.rs: increment the count and hand out
a Lich wrapping the value pointer of the Soul. -/
def rawBind (s : RawSoul) : RawSoul × RawLich :=
  ({ s with count := s.count + 1 }, ⟨s.ptr⟩)

/-- Translation of Soul::redeem from raw.rs (lines 92-104): first
checked_sub(1) on the count, returning Err(lich) when it is already 0;
then addr_eq between the value pointer of the Soul and the pointer of the
Lich: on equality the Lich is forgotten, the decremented count is stored
and Ok(new count == 0) is returned, otherwise Err(lich). The result pairs
the (possibly updated) Soul with some b for Ok(b) and none for Err. -/
def rawRedeem (s : RawSoul) (l : RawLich) : RawSoul × Option Bool :=
  if s.count = 0 then (s, none)
  else if s.ptr = l.ptr then
    ({ s with count := s.count - 1 }, some (s.count - 1 == 0))
  else (s, none)

/-- Translation of the free function panic from raw.rs (lines 141-158),
std variant: when the thread is already unwinding from an earlier panic the
call returns false and nothing is raised; otherwise a panic is raised
(after which the thread is unwinding). The result pairs the raised flag
with the unwinding flag after the call. -/
def rawPanicOp (unwinding : Bool) : Bool × Bool := (!unwinding, true)

/-- Translation of the Drop impl of Lich in raw.rs (lines 38-42): every
Lich reaching its destructor (necessarily unredeemed, since redeem forgets
the Lich) calls panic. -/
def rawLichDrop (unwinding : Bool) : Bool × Bool := rawPanicOp unwinding

/-- Translation of the Drop impl of Soul in raw.rs (lines 133-139): panic
exactly when bindings remain, otherwise do nothing. -/
def rawSoulDrop (s : RawSoul) (unwinding : Bool) : Bool × Bool :=
  if rawIsBound s then rawPanicOp unwinding else (false, unwinding)

/-! ## Slot state of cell.rs and lock.rs -/

/-- State of the RefCell slot of cell.rs, respectively the RwLock slot of
lock.rs: whether the Option slot still holds the shrouded pointer, how many
shared accesses (Ref guards, read guards) are active, and whether an
exclusive (mutable, write) access is active. -/
structure Slot where
  present : Bool
  shared : ℕ
  writer : Bool
deriving DecidableEq

/-- Translation of Lich::borrow from cell.rs (lines 59-68): try_borrow
fails exactly when a mutable borrow is active (shared borrows coexist);
on success the guard is returned only when the slot still holds a value,
otherwise None. The operation never blocks and never panics (it is a total
function). -/
def cellBorrow (s : Slot) : Option Unit :=
  if s.writer then none
  else if s.present then some () else none

/-- Translation of Lich::borrow from lock.rs (lines 100-109): try_read
fails exactly when the write lock is held; on success the guard is returned
only when the slot still holds a value, otherwise None. The operation never
blocks and never panics (it is a total function). -/
def lockBorrow (s : Slot) : Option Unit :=
  if s.writer then none
  else if s.present then some () else none

/-- Translation of the free function sever from cell.rs (lines 187-189):
borrow_mut panics when any borrow is active (modelled as none); otherwise
Option::take is run on the slot, reporting whether a value was present and
leaving the slot empty. -/
def cellSlotSever (s : Slot) : Option (Bool × Slot) :=
  if s.shared = 0 ∧ s.writer = false then
    some (s.present, { s with present := false })
  else none

/-- Translation of the free function try_sever from cell.rs (lines
191-193): try_borrow_mut declines (None) when any borrow is active;
otherwise Option::take is run on the slot. -/
def cellSlotTrySever (s : Slot) : Option (Bool × Slot) :=
  if s.shared = 0 ∧ s.writer = false then
    some (s.present, { s with present := false })
  else none

/-- Translation of the free function sever from lock.rs (lines 159-164):
the write lock is acquired (blocking until all guards are gone, so the slot
reached here has no active access), then Option::take is run on the slot.
The modelled state is the slot once the lock is held. -/
def lockSlotSever (s : Slot) : Bool × Slot :=
  (s.present, { s with present := false })

/-- Translation of the free function try_sever from lock.rs (lines
166-172): try_write declines (None) when the lock is held in any mode;
otherwise Option::take is run on the slot. -/
def lockSlotTrySever (s : Slot) : Option (Bool × Slot) :=
  if s.shared = 0 ∧ s.writer = false then
    some (s.present, { s with present := false })
  else none

/-! ## Basic facts about the constants and the sever loops -/

lemma u32Mod_pos : 0 < u32Mod := by norm_num [u32Mod]

lemma u32Max_lt_mod : u32Max < u32Mod := by norm_num [u32Max, u32Mod]

lemma u32Max_succ : u32Max + 1 = u32Mod := by norm_num [u32Max, u32Mod]

lemma pred_mod (c : ℕ) (h0 : 0 < c) (h : c < u32Mod) :
    (c + (u32Mod - 1)) % u32Mod = c - 1 := by
  have hp := u32Mod_pos
  have h1 : c + (u32Mod - 1) = (c - 1) + u32Mod := by omega
  rw [h1, Nat.add_mod_right, Nat.mod_eq_of_lt]
  omega

lemma flatSever_eq (force : Bool) (c e : ℕ) :
    flatSever force c e =
      if c = 0 then (some true, u32Max)
      else if c = u32Max then (some true, u32Max)
      else if force then
        match e with
        | 0 => (none, c)
        | Nat.succ e2 => flatSever force (c - 1) e2
      else (some false, c) := by
  conv_lhs => rw [flatSever.eq_def]

lemma atomicSever_eq (wait : Bool) (c e : ℕ) :
    atomicSever wait c e =
      if c = 0 then (some true, u32Max)
      else if c = u32Max then (some false, u32Max)
      else if wait then
        match e with
        | 0 => (none, c)
        | Nat.succ e2 => atomicSever wait (c - 1) e2
      else (none, c) := by
  conv_lhs => rw [atomicSever.eq_def]

lemma flatSever_force_blocked (k : ℕ) :
    ∀ c : ℕ, 0 < c → c < u32Max → k < c → (flatSever true c k).1 = none := by
  induction k with
  | zero =>
    intro c h0 hM hk
    rw [flatSever_eq]
    have h1 : ¬c = 0 := by omega
    have h2 : ¬c = u32Max := by omega
    simp [h1, h2]
  | succ k ih =>
    intro c h0 hM hk
    rw [flatSever_eq]
    have h1 : ¬c = 0 := by omega
    have h2 : ¬c = u32Max := by omega
    simp only [h1, h2, if_false, if_true]
    exact ih (c - 1) (by omega) (by omega) (by omega)

lemma flatSever_force_done :
    ∀ c : ℕ, c < u32Max → flatSever true c c = (some true, u32Max) := by
  intro c
  induction c with
  | zero => intro _; rw [flatSever_eq]; simp
  | succ c ih =>
    intro h
    rw [flatSever_eq]
    have h1 : ¬c + 1 = 0 := by omega
    have h2 : ¬c + 1 = u32Max := by omega
    simp only [h1, h2, if_false, if_true, Nat.add_sub_cancel]
    exact ih (by omega)

lemma atomicSever_force_blocked (k : ℕ) :
    ∀ c : ℕ, 0 < c → c < u32Max → k < c → (atomicSever true c k).1 = none := by
  induction k with
  | zero =>
    intro c h0 hM hk
    rw [atomicSever_eq]
    have h1 : ¬c = 0 := by omega
    have h2 : ¬c = u32Max := by omega
    simp [h1, h2]
  | succ k ih =>
    intro c h0 hM hk
    rw [atomicSever_eq]
    have h1 : ¬c = 0 := by omega
    have h2 : ¬c = u32Max := by omega
    simp only [h1, h2, if_false, if_true]
    exact ih (c - 1) (by omega) (by omega) (by omega)

lemma atomicSever_force_done :
    ∀ c : ℕ, c < u32Max → atomicSever true c c = (some true, u32Max) := by
  intro c
  induction c with
  | zero => intro _; rw [atomicSever_eq]; simp
  | succ c ih =>
    intro h
    rw [atomicSever_eq]
    have h1 : ¬c + 1 = 0 := by omega
    have h2 : ¬c + 1 = u32Max := by omega
    simp only [h1, h2, if_false, if_true, Nat.add_sub_cancel]
    exact ih (by omega)

lemma flatSever_at_sentinel (f : Bool) (e : ℕ) :
    flatSever f u32Max e = (some true, u32Max) := by
  rw [flatSever_eq]
  have h1 : ¬u32Max = 0 := by norm_num [u32Max]
  simp [h1]

lemma atomicSever_at_sentinel (f : Bool) (e : ℕ) :
    atomicSever f u32Max e = (some false, u32Max) := by
  rw [atomicSever_eq]
  have h1 : ¬u32Max = 0 := by norm_num [u32Max]
  simp [h1]

lemma flatSever_at_zero (f : Bool) (e : ℕ) :
    flatSever f 0 e = (some true, u32Max) := by
  rw [flatSever_eq]; simp

lemma atomicSever_at_zero (f : Bool) (e : ℕ) :
    atomicSever f 0 e = (some true, u32Max) := by
  rw [atomicSever_eq]; simp

/-! ## Claim C1: blocking severance -/

/-- C1: for the thread-safe counter bindings (the flat soul.rs loop and the
atomic.rs loop), the forcing sever on a state with n outstanding Liches
(0 < n < sentinel) stays blocked while fewer than n Lich drops have
occurred, and returns successfully with the state severed once every
outstanding Lich has been dropped; and the Lich destructor wakes the
blocked severing thread exactly when its decrement brings the count to
zero (previous value 1). -/
theorem sever_blocks_until_last_drop (n : ℕ) (h0 : 0 < n) (hM : n < u32Max) :
    (∀ k, k < n → (flatSever true n k).1 = none) ∧
    flatSever true n n = (some true, u32Max) ∧
    (∀ k, k < n → (atomicSever true n k).1 = none) ∧
    atomicSever true n n = (some true, u32Max) ∧
    (∀ m, 0 < m → m < u32Max → flatLichDrop m = some (m - 1, m - 1 == 0)) ∧
    (∀ m, (atomicDataDrop m).2 = (m == 1)) := by
  refine ⟨fun k hk => flatSever_force_blocked k n h0 hM hk,
    flatSever_force_done n hM,
    fun k hk => atomicSever_force_blocked k n h0 hM hk,
    atomicSever_force_done n hM, fun m hm hM2 => ?_, fun m => rfl⟩
  have h1 : ¬(m = 0 ∨ m = u32Max) := by omega
  simp [flatLichDrop, decrement, h1]

/-- C1 witness at n = 2: with two outstanding Liches the forcing sever is
still blocked after one drop, returns true after both drops, and the drop
from count 1 is the one that wakes. -/
theorem sever_blocks_until_last_drop_witness :
    (flatSever true 2 1).1 = none ∧
    flatSever true 2 2 = (some true, u32Max) ∧
    (atomicSever true 2 1).1 = none ∧
    atomicSever true 2 2 = (some true, u32Max) ∧
    flatLichDrop 1 = some (0, true) ∧
    (atomicDataDrop 1).2 = true := by
  have h := sever_blocks_until_last_drop 2 (by norm_num)
    (by norm_num [u32Max])
  refine ⟨h.1 1 (by norm_num), h.2.1, h.2.2.1 1 (by norm_num), h.2.2.2.1,
    ?_, ?_⟩
  · simpa using h.2.2.2.2.1 1 (by norm_num) (by norm_num [u32Max])
  · simpa using h.2.2.2.2.2 1

/-! ## Claim C2: severed state is terminal -/

/-- C3 counterexample: with exactly one outstanding Lich, redeem on the
flat soul.rs module returns Ok(1), the PREVIOUS count (the raw result of
fetch_sub), while the new stored count is 0; the claimed Ok with the
post-decrement count would be Ok(0). -/
theorem redeem_returns_previous_count :
    flatRedeem 1 true = some (1, 0) ∧ flatRedeem 1 true ≠ some (0, 0) := by
  constructor
  · simp [flatRedeem, u32Mod]
  · simp [flatRedeem]

/-- C3 amended: for every bound Lich, redeem consumes it without running
its destructor logic (the Lich is forgotten, so no wake is issued) and
decrements the count by one, but the Ok value handed back is the
pre-decrement count, one more than the remaining outstanding count; an
unbound Lich is returned as an error with the count untouched. -/
theorem redeem_decrements_and_returns_old (c : ℕ) (h0 : 0 < c)
    (h : c < u32Mod) :
    flatRedeem c true = some (c, c - 1) ∧ flatRedeem c false = none := by
  constructor
  · simp [flatRedeem, pred_mod c h0 h]
  · simp [flatRedeem]

/-- C3 witness at count 3: redeem hands back 3 and stores 2. -/
theorem redeem_decrements_and_returns_old_witness :
    flatRedeem 3 true = some (3, 2) ∧ flatRedeem 3 false = none :=
  redeem_decrements_and_returns_old 3 (by norm_num) (by norm_num [u32Mod])

/-! ## Claim C4: bindings query -/

/-- C4: the bindings query of the flat soul.rs module (identical in
lich.rs) returns the stored count for every countable state and 0 at the
severed sentinel; in particular it returns 0 on a freshly created,
never-bound Soul (count 0) and 0 on a severed Soul. -/
theorem bindings_counts_outstanding (c : ℕ) (h : c < u32Mod) :
    flatBindings c = if c = u32Max then 0 else c := by
  by_cases hc : c = u32Max
  · subst hc
    norm_num [flatBindings, u32Max, u32Mod]
  · have h1 : c + 1 < u32Mod := by
      have := u32Max_succ
      omega
    simp [flatBindings, hc, Nat.mod_eq_of_lt h1]

/-- C4 witness at the severed sentinel: the query reports 0. -/
theorem bindings_counts_outstanding_witness :
    flatBindings u32Max = if u32Max = u32Max then 0 else u32Max :=
  bindings_counts_outstanding u32Max u32Max_lt_mod

/-! ## Claim C5: identity rejection of redeem -/

/-- C5 counterexample: two physically distinct raw Souls may wrap the same
value address (Soul::new called twice on the same reference), in which case
redeem identifies a Lich by value address alone. Soul A holds (count 1,
ptr 42); a distinct Soul B with ptr 42 hands out (via bind) the Lich with
ptr 42; redeem of A with this foreign Lich does not return it as an error
but consumes it and decrements the count of A to 0, contradicting the
claim that redeem with a Lich of another Soul always errs and never
mutates. -/
theorem raw_redeem_false_positive :
    (rawBind ⟨0, 42⟩).2 = (⟨42⟩ : RawLich) ∧
    rawRedeem ⟨1, 42⟩ ⟨42⟩ ≠ ((⟨1, 42⟩ : RawSoul), (none : Option Bool)) ∧
    rawRedeem ⟨1, 42⟩ ⟨42⟩ = (⟨0, 42⟩, some true) := by
  refine ⟨rfl, ?_, by simp [rawRedeem]⟩
  simp [rawRedeem]

/-- C5 amended: redeem with a Lich of another Soul returns the Lich
unchanged as an error and mutates no count, unconditionally for the flat
soul.rs module (distinct Souls hold their counts at distinct addresses and
the identity check compares count addresses), and for the raw module
provided the two Souls wrap distinct value addresses; the raw
value-address identity admits false positives when distinct Souls wrap the
same address, a documented limitation. -/
theorem redeem_identity_rejection (A B : FlatSoul) (l : FlatLich)
    (hAB : A.addr ≠ B.addr) (hl : l.countAddr = B.addr)
    (sA sB : RawSoul) (r : RawLich)
    (hptr : sA.ptr ≠ sB.ptr) (hr : r.ptr = sB.ptr) :
    flatRedeemOp A l = (A, none) ∧ rawRedeem sA r = (sA, none) := by
  constructor
  · have hb : is_bound A l = false := by
      simp [is_bound, hl]
      exact hAB
    simp [flatRedeemOp, hb]
  · have hp : ¬sA.ptr = r.ptr := by rw [hr]; exact hptr
    by_cases hz : sA.count = 0
    · simp [rawRedeem, hz]
    · simp [rawRedeem, hz, hp]

/-- C5 witness: a flat Soul at address 1 rejects the Lich of the Soul at
address 2, and a raw Soul wrapping address 10 rejects the Lich wrapping
address 20, in both cases leaving the Soul untouched. -/
theorem redeem_identity_rejection_witness :
    flatRedeemOp ⟨1, 1⟩ ⟨2⟩ = ((⟨1, 1⟩ : FlatSoul), none) ∧
    rawRedeem ⟨1, 10⟩ ⟨20⟩ = ((⟨1, 10⟩ : RawSoul), none) :=
  redeem_identity_rejection ⟨1, 1⟩ ⟨2, 0⟩ ⟨2⟩ (by norm_num) rfl
    ⟨1, 10⟩ ⟨0, 20⟩ ⟨20⟩ (by norm_num) rfl

/-! ## Claim C6: misuse-fatal destruction in the raw module -/

/-- C6: in the raw (Manual) module, a Lich reaching its destructor
(necessarily unredeemed, since redeem forgets it) raises the fatal panic,
and a Soul with outstanding bindings does so as well, in each case exactly
when the thread is not already unwinding (otherwise the drop is a no-op);
a Soul without bindings drops silently; and in the bind-then-drop-both
scenario the fatal error is raised exactly once in either drop order. -/
theorem raw_misuse_fatal (s : RawSoul) (h : 0 < s.count) (u : Bool) :
    (rawLichDrop u).1 = !u ∧
    (rawSoulDrop s u).1 = !u ∧
    rawSoulDrop { s with count := 0 } u = (false, u) ∧
    ((rawLichDrop false).1 = true ∧
      (rawSoulDrop s (rawLichDrop false).2).1 = false) ∧
    ((rawSoulDrop s false).1 = true ∧
      (rawLichDrop (rawSoulDrop s false).2).1 = false) := by
  have hb : rawIsBound s = true := by
    simp [rawIsBound]
    exact h
  refine ⟨rfl, ?_, ?_, ⟨rfl, ?_⟩, ⟨?_, ?_⟩⟩ <;>
    simp [rawSoulDrop, rawLichDrop, rawPanicOp, rawIsBound, hb, h]

/-- C6 witness: a raw Soul with one binding and its Lich, dropped in either
order on a thread that is not yet unwinding, raise the panic exactly once. -/
theorem raw_misuse_fatal_witness :
    (rawLichDrop false).1 = !false ∧
    (rawSoulDrop ⟨1, 0⟩ false).1 = !false ∧
    rawSoulDrop { (⟨1, 0⟩ : RawSoul) with count := 0 } false = (false, false) ∧
    ((rawLichDrop false).1 = true ∧
      (rawSoulDrop ⟨1, 0⟩ (rawLichDrop false).2).1 = false) ∧
    ((rawSoulDrop ⟨1, 0⟩ false).1 = true ∧
      (rawLichDrop (rawSoulDrop ⟨1, 0⟩ false).2).1 = false) :=
  raw_misuse_fatal ⟨1, 0⟩ (by norm_num) false

/-! ## Claim C7: overflow checking on increments -/

/-- C7 counterexample: at the maximal countable value u32MAX - 1 the clone
path does raise the overflow assertion (increment refuses), but bind checks
nothing and silently wraps the count into the severed sentinel; at the
sentinel itself bind wraps to 0. So it is not the case that every
incrementing operation checks for overflow and panics instead of
wrapping. -/
theorem bind_overflow_unchecked :
    increment (u32Max - 1) = none ∧
    flatBind (u32Max - 1) = u32Max ∧
    flatBind u32Max = 0 := by
  refine ⟨by simp [increment], ?_, ?_⟩
  · norm_num [flatBind, u32Max, u32Mod]
  · norm_num [flatBind, u32Max, u32Mod]

/-- C7 amended: the clone path (increment of lich.rs) checks for overflow,
refusing with a fatal assertion exactly when the count is at or above
u32MAX - 1 (so the count never silently reaches the sentinel through
clone), while Soul::bind of soul.rs performs an unchecked fetch_add that
wraps modulo 2^32 with no assertion. -/
theorem clone_checked_bind_unchecked (c : ℕ) :
    (increment c = none ↔ u32Max - 1 ≤ c) ∧
    flatBind c = (c + 1) % u32Mod := by
  refine ⟨?_, rfl⟩
  unfold increment
  split
  · simp
    omega
  · simp
    omega

/-! ## Claim C8: soft borrow failure for cell and lock -/

/-- C8: for the cell.rs and lock.rs bindings, borrow returns a guard
exactly when the value slot still holds a value and no exclusive access is
in progress; in every other state it returns None. Both functions are
total: the failure is an explicit empty result, never a block or a panic,
and concurrent shared accesses never cause a failure. -/
theorem borrow_soft_failure (s : Slot) :
    (cellBorrow s).isSome = (s.present && !s.writer) ∧
    (lockBorrow s).isSome = (s.present && !s.writer) := by
  obtain ⟨p, sh, w⟩ := s
  cases p <;> cases w <;> simp [cellBorrow, lockBorrow]

/-! ## Claim C9: idempotent severance -/

/-- C9 counterexample: in the flat soul.rs module the sever loop reports
true, not false, when it runs on an already-severed state: observing the
sentinel breaks true in both the forcing and the non-forcing variant, so a
second severance does not report false there. -/
theorem flat_sever_true_when_severed :
    flatSever false u32Max 0 = (some true, u32Max) ∧
    flatSever true u32Max 0 = (some true, u32Max) :=
  ⟨flatSever_at_sentinel false 0, flatSever_at_sentinel true 0⟩

/-- C9 amended: a second severance of an already-severed state is safe
(no panic, state unchanged) in every module; the atomic.rs loop reports
false on the sentinel and true on the first severance of a clearable
(count 0) state, and the cell.rs and lock.rs slot operations report the
previous presence of the value, hence false on a second run; the flat
soul.rs loop however reports true on an already-severed state (its Boolean
reports that the state is fully severed, not that this call severed it). -/
theorem sever_idempotent (f : Bool) (e : ℕ) (s : Slot)
    (h1 : s.shared = 0) (h2 : s.writer = false) :
    atomicSever f u32Max e = (some false, u32Max) ∧
    atomicSever f 0 e = (some true, u32Max) ∧
    cellSlotSever s = some (s.present, { s with present := false }) ∧
    cellSlotTrySever s = some (s.present, { s with present := false }) ∧
    lockSlotSever s = (s.present, { s with present := false }) ∧
    lockSlotTrySever s = some (s.present, { s with present := false }) := by
  refine ⟨atomicSever_at_sentinel f e, atomicSever_at_zero f e, ?_, ?_, rfl, ?_⟩ <;>
    simp [cellSlotSever, cellSlotTrySever, lockSlotTrySever, h1, h2]

/-- C9 witness: on the already-cleared slot with no active access, the
second severance reports false everywhere and the atomic loop reports
false at the sentinel. -/
theorem sever_idempotent_witness :
    atomicSever false u32Max 0 = (some false, u32Max) ∧
    atomicSever false 0 0 = (some true, u32Max) ∧
    cellSlotSever ⟨false, 0, false⟩ =
      some (false, { (⟨false, 0, false⟩ : Slot) with present := false }) ∧
    cellSlotTrySever ⟨false, 0, false⟩ =
      some (false, { (⟨false, 0, false⟩ : Slot) with present := false }) ∧
    lockSlotSever ⟨false, 0, false⟩ =
      (false, { (⟨false, 0, false⟩ : Slot) with present := false }) ∧
    lockSlotTrySever ⟨false, 0, false⟩ =
      some (false, { (⟨false, 0, false⟩ : Slot) with present := false }) :=
  sever_idempotent false 0 ⟨false, 0, false⟩ rfl rfl

/-! ## Claim C10: generic redeem of the last Lich -/

/-- C10 counterexample: redeeming the last atomic Lich returns Ok(None)
with the Soul consumed, but no severance runs: the generic redeem drops
the Life of the Soul in place, which for the atomic binding is a no-op, so
the counter is left at 0 (unbound), not at the severed sentinel. -/
theorem redeem_last_does_not_sever :
    atomicRedeem 1 true = (some none, 0) ∧
    (atomicRedeem 1 true).2 ≠ u32Max := by
  have h : atomicRedeem 1 true = (some none, 0) := by
    simp [atomicRedeem, atomicDataDrop, bound, u32Mod]
  refine ⟨h, ?_⟩
  rw [h]
  norm_num [u32Max]

/-- C10 amended: whenever the Lich and Soul are bound together the generic
redeem (instantiated at the atomic binding) succeeds and consumes the Lich
by running the Data drop (one decrement), returning Ok(Some(soul)) exactly
when at least one other live Lich remains; redeeming the last Lich returns
Ok(None) and consumes the Soul WITHOUT running its severance, leaving the
counter at 0 rather than at the severed sentinel; an unbound pair is
returned unchanged as an error. -/
theorem generic_redeem_atomic (c : ℕ) (h0 : 0 < c) (hM : c < u32Max) :
    atomicRedeem c true =
      (some (if 1 < c then some (c - 1) else none), c - 1) ∧
    atomicRedeem c false = (none, c) := by
  have hmod : (c + (u32Mod - 1)) % u32Mod = c - 1 :=
    pred_mod c h0 (lt_trans hM u32Max_lt_mod)
  refine ⟨?_, by simp [atomicRedeem]⟩
  by_cases h1 : 1 < c
  · have hb : bound (c - 1) = true := by
      simp [bound]
      omega
    simp [atomicRedeem, atomicDataDrop, hmod, hb, h1]
  · have hc1 : c = 1 := by omega
    subst hc1
    simp [atomicRedeem, atomicDataDrop, bound, u32Mod]

/-- C10 witness at count 2: redeem returns Ok(Some(soul)) with one Lich
remaining and the counter at 1. -/
theorem generic_redeem_atomic_witness :
    atomicRedeem 2 true =
      (some (if 1 < 2 then some (2 - 1) else none), 2 - 1) ∧
    atomicRedeem 2 false = (none, 2) :=
  generic_redeem_atomic 2 (by norm_num) (by norm_num [u32Max])

end Phylactery
